import Mathlib

/-
Verification of scripts/continuous-tx-generator.py, a continuous
transaction generator for a blockchain JSON-RPC endpoint pair.

Shallow embedding conventions:
- A parsed JSON-RPC response object is modelled as an association list
  from top-level field names to string values ("Json" below).  The script
  only ever inspects key presence ("result" in result, "error" in result)
  and reads the "result" value, so string values suffice.  Python dict
  truthiness of a response is list non-emptiness.
- Network effects are oracles passed as arguments: send_rpc_request takes
  a function from attempt index to the outcome of that HTTP POST
  (transport exception, or a status code with a parsed body), and
  send_transaction / check_network_health take the per-URL response that
  send_rpc_request produced for them.
- Randomness is an explicit argument: each call of random.randint /
  random.choice / random.choices is fed one natural number pick, mapped
  into the required range by taking a remainder, so every value the
  Python RNG can produce is reachable.  The resampling while-loop over
  to_account consumes a stream of picks and a fuel bound.
- time.sleep durations are recorded in a trace; datetime start_time and
  log text are not modelled (log events are counted by level where a
  claim needs them).
-/

/-- Top-level JSON object: association list from field name to value. -/
abbrev Json := List (String × String)

/-- Dict lookup: first value bound to key k, mirroring Python d[k] /
"k in d" (membership is isSome of the lookup). -/
def jsonGet (r : Json) (k : String) : Option String :=
  match r with
  | [] => none
  | (k', v) :: rest => if k' = k then some v else jsonGet rest k

/-- RPC_URL = os.getenv('RPC_URL', 'http://localhost:8545'), default value. -/
def RPC_URL : String := "http://localhost:8545"

/-- SEQUENCER_URL default value. -/
def SEQUENCER_URL : String := "http://localhost:8555"

/-- max_retries = 3 in send_rpc_request. -/
def max_retries : Nat := 3

/-- Outcome of one requests.post call: a transport-level exception
(requests.exceptions.RequestException) or an HTTP status with parsed body. -/
inductive Attempt where
  | exn : Attempt
  | http : Nat → Json → Attempt
deriving DecidableEq

/-- Observable trace of one send_rpc_request call: returned value, number
of requests.post calls made, the time.sleep durations in order, and counts
of WARN and ERROR log lines. -/
structure RpcTrace where
  result : Option Json
  attempts : Nat
  sleeps : List Nat
  warns : Nat
  errors : Nat
deriving DecidableEq

/-- Body of the retry loop "for attempt in range(max_retries)" of
send_rpc_request, recursing over the list of remaining attempt indices.
On HTTP 200 the parsed body is returned at once; on any other status a
WARN is logged and the loop continues; on a transport exception, a WARN
is logged and time.sleep(2 ** attempt) runs if attempt < max_retries - 1,
else an ERROR is logged and the loop ends with None. -/
def rpcGo (o : Nat → Attempt) : List Nat → RpcTrace
  | [] => ⟨none, 0, [], 0, 0⟩
  | i :: rest =>
    match o i with
    | Attempt.http code body =>
      if code = 200 then ⟨some body, 1, [], 0, 0⟩
      else
        let t := rpcGo o rest
        ⟨t.result, t.attempts + 1, t.sleeps, t.warns + 1, t.errors⟩
    | Attempt.exn =>
      if i + 1 < max_retries then
        let t := rpcGo o rest
        ⟨t.result, t.attempts + 1, 2 ^ i :: t.sleeps, t.warns + 1, t.errors⟩
      else
        ⟨none, 1, [], 0, 1⟩

/-- send_rpc_request(url, method, params): the retry loop over attempt
indices 0, 1, 2, with the outcome of each attempt given by the oracle o. -/
def send_rpc_request (o : Nat → Attempt) : RpcTrace :=
  rpcGo o (List.range max_retries)

/-- Value of one hexadecimal digit character, as accepted by int(s, 16). -/
def hexDigitVal (c : Char) : Option Nat :=
  if '0' ≤ c ∧ c ≤ '9' then some (c.toNat - '0'.toNat)
  else if 'a' ≤ c ∧ c ≤ 'f' then some (c.toNat - 'a'.toNat + 10)
  else if 'A' ≤ c ∧ c ≤ 'F' then some (c.toNat - 'A'.toNat + 10)
  else none

/-- Accumulate hexadecimal digits left to right; none on a non-digit. -/
def parseHexDigits (cs : List Char) : Option Nat :=
  cs.foldl (fun acc c =>
    match acc, hexDigitVal c with
    | some a, some d => some (16 * a + d)
    | _, _ => none) (some 0)

/-- Python int(s, 16) on a non-negative hex string: optional 0x/0X prefix
then at least one hex digit; none models the ValueError raise. -/
def parseHex (s : String) : Option Nat :=
  let cs := s.data
  let cs := if cs.take 2 = ['0', 'x'] ∨ cs.take 2 = ['0', 'X'] then cs.drop 2 else cs
  if cs.isEmpty then none else parseHexDigits cs

/-- Python hex(n) for non-negative n: "0x" followed by lowercase hex digits. -/
def hexStr (n : Nat) : String :=
  "0x" ++ String.mk (Nat.toDigits 16 n)

/-- Python "00" * n: the string "00" repeated n times. -/
def zeroBytes : Nat → String
  | 0 => ""
  | n + 1 => "00" ++ zeroBytes n

/-- One pre-funded development account from the ACCOUNTS table. -/
structure Account where
  address : String
  private_key : String
deriving DecidableEq, Inhabited

/-- The ACCOUNTS table of the script (genesis development accounts). -/
def ACCOUNTS : List Account :=
  [⟨"0x742A4D1A0Ac05A73A48F10C2E2d6b0E3f1b2e3F4",
    "0x0123456789abcdef0123456789abcdef0123456789abcdef0123456789abcdef"⟩,
   ⟨"0x8B3A4D1A0Ac05A73A48F10C2E2d6b0E3f1b2e3F5",
    "0x1123456789abcdef0123456789abcdef0123456789abcdef0123456789abcdef"⟩,
   ⟨"0x9C4A4D1A0Ac05A73A48F10C2E2d6b0E3f1b2e3F6",
    "0x2123456789abcdef0123456789abcdef0123456789abcdef0123456789abcdef"⟩]

/-- One entry of the TX_PATTERNS table. -/
structure TxPattern where
  type : String
  weight : Nat
  amount_range : Nat × Nat
deriving DecidableEq, Inhabited

/-- The TX_PATTERNS table of the script. -/
def TX_PATTERNS : List TxPattern :=
  [⟨"transfer", 60, (1, 1000)⟩,
   ⟨"large_transfer", 15, (1000, 10000)⟩,
   ⟨"micro_transfer", 20, (1, 10)⟩,
   ⟨"contract_call", 5, (0, 100)⟩]

/-- random.randint(a, b) (inclusive bounds), with the pick k selecting the
value a + k mod (b - a + 1); every value of the range is reachable. -/
def randint (a b k : Nat) : Nat :=
  a + k % (b - a + 1)

/-- The while-loop "while to_account address == from_account address:
resample to_account", starting with the initial random.choice pick.
picks is the stream of choice picks (index into ACCOUNTS mod its length);
fuel bounds the number of iterations, none meaning the loop has not
terminated within fuel draws. -/
def resampleTo (accounts : List Account) (fromAddr : String) (picks : Nat → Nat) :
    Nat → Nat → Option Account
  | _, 0 => none
  | i, fuel + 1 =>
    let cand := accounts.getD (picks i % accounts.length) default
    if cand.address = fromAddr then resampleTo accounts fromAddr picks (i + 1) fuel
    else some cand

/-- The transaction dict built by generate_realistic_transaction; all
numeric fields are hex-encoded strings as in the source. -/
structure Tx where
  from_addr : String
  to_addr : String
  value : String
  gas : String
  gasPrice : String
  data : String
deriving DecidableEq

/-- generate_realistic_transaction(): weighted pattern choice (patternPick
selects an element of TX_PATTERNS; every pattern has positive weight, so
every element is in the support of random.choices), from/to account
choices, amount and gas price draws, gas limit 21000 except for
contract_call where it is randint(50000, 200000), and data "0x" except
for contract_call where it is "0x" plus "00" * randint(0, 100).
Returns (tx, pattern type, amount) like the source. -/
def generate_realistic_transaction (patternPick fromPick : Nat) (toPicks : Nat → Nat)
    (amountPick gasPricePick gasLimitPick dataLenPick fuel : Nat) :
    Option (Tx × String × Nat) :=
  let pattern := TX_PATTERNS.getD (patternPick % TX_PATTERNS.length) default
  let from_account := ACCOUNTS.getD (fromPick % ACCOUNTS.length) default
  match resampleTo ACCOUNTS from_account.address toPicks 0 fuel with
  | none => none
  | some to_account =>
    let amount := randint pattern.amount_range.1 pattern.amount_range.2 amountPick
    let gas_price := randint 1000000000 50000000000 gasPricePick
    let gas_limit :=
      if pattern.type = "contract_call" then randint 50000 200000 gasLimitPick else 21000
    let data :=
      if pattern.type ≠ "contract_call" then "0x"
      else "0x" ++ zeroBytes (randint 0 100 dataLenPick)
    some (⟨from_account.address, to_account.address, hexStr amount, hexStr gas_limit,
           hexStr gas_price, data⟩,
          pattern.type, amount)

/-- The numeric fields of the global stats dict (start_time, a wall-clock
datetime, is not modelled). -/
structure Stats where
  total_transactions : Nat
  successful_transactions : Nat
  failed_transactions : Nat
  last_block_check : Nat
  blocks_observed : Nat
deriving DecidableEq

/-- The initial value of the global stats dict: every counter 0. -/
def stats : Stats := ⟨0, 0, 0, 0, 0⟩

/-- Python "result and (result has key result)" for an Option-valued
response: the response is not None, truthy, and has a "result" field. -/
def respHasResult (o : Option Json) : Bool :=
  match o with
  | none => false
  | some r => !r.isEmpty && (jsonGet r "result").isSome

/-- The endpoint loop of send_transaction: for each (name, url) in order,
call the RPC client (its response given by the oracle resp); on a truthy
response with a "result" field, increment the success counter and return
the result value; otherwise (None response, or a response with an "error"
field, which only logs a warning, or any other response) continue; after
the loop, increment the failure counter and return None.  Also returns
the list of endpoint names actually contacted, in order. -/
def try_endpoints (resp : String → Option Json) :
    List (String × String) → Stats → Option String × Stats × List String
  | [], s => (none, { s with failed_transactions := s.failed_transactions + 1 }, [])
  | (name, url) :: rest, s =>
    match resp url with
    | some r =>
      if !r.isEmpty && (jsonGet r "result").isSome then
        (jsonGet r "result",
         { s with successful_transactions := s.successful_transactions + 1 },
         [name])
      else
        let t := try_endpoints resp rest s
        (t.1, t.2.1, name :: t.2.2)
    | none =>
      let t := try_endpoints resp rest s
      (t.1, t.2.1, name :: t.2.2)

/-- send_transaction(tx, tx_type, amount): increments the total counter
unconditionally, then tries the Validator endpoint (RPC_URL) and the
Sequencer endpoint (SEQUENCER_URL) in that order.  resp gives the value
send_rpc_request returned for each URL. -/
def send_transaction (tx : Tx) (tx_type : String) (amount : Nat)
    (resp : String → Option Json) (s : Stats) : Option String × Stats × List String :=
  try_endpoints resp [("Validator", RPC_URL), ("Sequencer", SEQUENCER_URL)]
    { s with total_transactions := s.total_transactions + 1 }

/-- check_network_health(): valR, seqR, blkR are the values
send_rpc_request returned for the web3_clientVersion probes and the
eth_blockNumber call.  current_block is 0 unless the block response is
truthy with a "result" field, in which case it is int(result, 16); a
parse failure raises ValueError, caught by the except branch which
returns (False, False, 0) with stats untouched.  If current_block exceeds
the last recorded height, blocks_observed grows by the delta and the
watermark is updated. -/
def check_network_health (valR seqR blkR : Option Json) (s : Stats) :
    (Bool × Bool × Nat) × Stats :=
  let validator_ok := valR.isSome
  let sequencer_ok := seqR.isSome
  let parsed : Option Nat :=
    match blkR with
    | some r =>
      if !r.isEmpty && (jsonGet r "result").isSome
      then parseHex ((jsonGet r "result").getD "")
      else some 0
    | none => some 0
  match parsed with
  | none => ((false, false, 0), s)
  | some current_block =>
    if s.last_block_check < current_block then
      ((validator_ok, sequencer_ok, current_block),
       { s with
          blocks_observed := s.blocks_observed + (current_block - s.last_block_check),
          last_block_check := current_block })
    else
      ((validator_ok, sequencer_ok, current_block), s)

/-- The block height a health-check cycle effectively observes: the
parsed current_block on success, 0 when the block response is missing,
falsy, lacks a "result" field, or fails to parse (in the parse-failure
case stats are untouched, which coincides with observing height 0). -/
def observedHeight (blkR : Option Json) : Nat :=
  (match blkR with
   | some r =>
     if !r.isEmpty && (jsonGet r "result").isSome
     then parseHex ((jsonGet r "result").getD "")
     else some 0
   | none => some 0).getD 0

/-- A sequence of health-check cycles: fold check_network_health over the
list of (validator, sequencer, block) response triples. -/
def runHealthChecks (inputs : List (Option Json × Option Json × Option Json))
    (s : Stats) : Stats :=
  inputs.foldl (fun st i => (check_network_health i.1 i.2.1 i.2.2 st).2) s

/-- The claim that the contract-call data payload can be an arbitrary
byte string: d is a producible contract-call data payload. -/
def producesData (d : String) : Prop :=
  ∃ pp fp : Nat, ∃ tp : Nat → Nat, ∃ ap gpp glp dlp fuel : Nat, ∃ tx : Tx, ∃ t : String, ∃ a : Nat,
    generate_realistic_transaction pp fp tp ap gpp glp dlp fuel = some (tx, t, a) ∧
    t = "contract_call" ∧ tx.data = d

example : parseHex "0x1a" = some 26 := by decide
example : hexStr 21000 = "0x5208" := by decide
example : send_rpc_request (fun _ => Attempt.exn) = ⟨none, 3, [1, 2], 2, 1⟩ := by decide

/-- The attempt indices of the retry loop. -/
theorem range_attempts : List.range max_retries = [0, 1, 2] := by decide

/-- The retry loop makes at most one attempt per loop index. -/
theorem rpcGo_attempts_le (o : Nat → Attempt) :
    ∀ l : List Nat, (rpcGo o l).attempts ≤ l.length := by
  intro l
  induction l with
  | nil => simp [rpcGo]
  | cons i rest ih =>
    cases ho : o i with
    | exn =>
      by_cases h : i + 1 < max_retries <;> simp [rpcGo, ho, h] <;> omega
    | http code body =>
      by_cases h : code = 200 <;> simp [rpcGo, ho, h] <;> omega

/-- A nonempty retry loop makes at least one attempt. -/
theorem rpcGo_attempts_pos (o : Nat → Attempt) :
    ∀ l : List Nat, l ≠ [] → 1 ≤ (rpcGo o l).attempts := by
  intro l hl
  cases l with
  | nil => exact absurd rfl hl
  | cons i rest =>
    cases ho : o i with
    | exn =>
      by_cases h : i + 1 < max_retries <;> simp [rpcGo, ho, h] <;> omega
    | http code body =>
      by_cases h : code = 200 <;> simp [rpcGo, ho, h] <;> omega

/-- Every slept duration comes from a transport-failed, non-final attempt i
and equals 2 to the power i. -/
theorem rpcGo_sleeps_exp (o : Nat → Attempt) :
    ∀ l : List Nat, ∀ t ∈ (rpcGo o l).sleeps,
      ∃ i, i + 1 < max_retries ∧ o i = Attempt.exn ∧ t = 2 ^ i := by
  intro l
  induction l with
  | nil => intro t ht; simp [rpcGo] at ht
  | cons i rest ih =>
    intro t ht
    cases ho : o i with
    | exn =>
      by_cases h : i + 1 < max_retries
      · simp only [rpcGo, ho, if_pos h] at ht
        rcases List.mem_cons.mp ht with h1 | h1
        · exact ⟨i, h, ho, h1⟩
        · exact ih t h1
      · simp [rpcGo, ho, h] at ht
    | http code body =>
      by_cases h : code = 200
      · simp [rpcGo, ho, h] at ht
      · simp only [rpcGo, ho, if_neg h] at ht
        exact ih t ht

/-- Unfolding step: a 200 response ends the loop at once with the body. -/
theorem rpcGo_cons_200 (o : Nat → Attempt) (i : Nat) (rest : List Nat) (b : Json)
    (h : o i = Attempt.http 200 b) :
    rpcGo o (i :: rest) = ⟨some b, 1, [], 0, 0⟩ := by
  simp [rpcGo, h]

/-- Unfolding step: a non-200 status logs a warning and the loop goes on. -/
theorem rpcGo_cons_http_err (o : Nat → Attempt) (i : Nat) (rest : List Nat)
    (c : Nat) (b : Json) (h : o i = Attempt.http c b) (hc : c ≠ 200) :
    rpcGo o (i :: rest) =
      ⟨(rpcGo o rest).result, (rpcGo o rest).attempts + 1, (rpcGo o rest).sleeps,
       (rpcGo o rest).warns + 1, (rpcGo o rest).errors⟩ := by
  simp [rpcGo, h, hc]

/-- Unfolding step: a transport failure before the last attempt sleeps
2 to the power i and the loop goes on. -/
theorem rpcGo_cons_exn (o : Nat → Attempt) (i : Nat) (rest : List Nat)
    (h : o i = Attempt.exn) (hlt : i + 1 < max_retries) :
    rpcGo o (i :: rest) =
      ⟨(rpcGo o rest).result, (rpcGo o rest).attempts + 1,
       2 ^ i :: (rpcGo o rest).sleeps, (rpcGo o rest).warns + 1,
       (rpcGo o rest).errors⟩ := by
  simp [rpcGo, h, hlt]

/-- C2 counterexample: on an endpoint that answers HTTP 500 to every
request, send_rpc_request issues 3 attempts, not 1, so it does retry on
an HTTP error status, contrary to the claim. -/
theorem send_rpc_request_retries_on_http_error :
    (send_rpc_request (fun _ => Attempt.http 500 [])).attempts = 3 ∧
    ((send_rpc_request (fun _ => Attempt.http 500 [])).attempts = 1) = False :=
  ⟨by decide, eq_false (by decide)⟩

/-- C2 (amended): send_rpc_request makes at most 3 attempts; it stops
retrying exactly on an HTTP 200 response, whose parsed body it returns
regardless of any JSON-RPC error field; it retries both on transport
failures and on non-200 HTTP statuses; and it sleeps only after
transport-failed non-final attempts, 2 to the power of the attempt index
seconds (exponential backoff base 2). -/
theorem send_rpc_request_retry_policy (o : Nat → Attempt) :
    (send_rpc_request o).attempts ≤ max_retries ∧
    (∀ b : Json, o 0 = Attempt.http 200 b →
      (send_rpc_request o).result = some b ∧ (send_rpc_request o).attempts = 1 ∧
      (send_rpc_request o).sleeps = []) ∧
    (o 0 = Attempt.exn → 2 ≤ (send_rpc_request o).attempts) ∧
    (∀ c b, o 0 = Attempt.http c b → c ≠ 200 → 2 ≤ (send_rpc_request o).attempts) ∧
    (∀ t ∈ (send_rpc_request o).sleeps,
      ∃ i, i + 1 < max_retries ∧ o i = Attempt.exn ∧ t = 2 ^ i) := by
  refine ⟨?_, ?_, ?_, ?_, ?_⟩
  · have h := rpcGo_attempts_le o (List.range max_retries)
    simpa [send_rpc_request] using h
  · intro b hb
    unfold send_rpc_request
    rw [range_attempts, rpcGo_cons_200 o 0 [1, 2] b hb]
    exact ⟨rfl, rfl, rfl⟩
  · intro hb
    have h1 : 1 ≤ (rpcGo o [1, 2]).attempts :=
      rpcGo_attempts_pos o [1, 2] (by simp)
    unfold send_rpc_request
    rw [range_attempts, rpcGo_cons_exn o 0 [1, 2] hb (by decide)]
    show 2 ≤ (rpcGo o [1, 2]).attempts + 1
    omega
  · intro c b hb hc
    have h1 : 1 ≤ (rpcGo o [1, 2]).attempts :=
      rpcGo_attempts_pos o [1, 2] (by simp)
    unfold send_rpc_request
    rw [range_attempts, rpcGo_cons_http_err o 0 [1, 2] c b hb hc]
    show 2 ≤ (rpcGo o [1, 2]).attempts + 1
    omega
  · exact rpcGo_sleeps_exp o (List.range max_retries)

/-- C2 witness: on an all-transport-failure run the amended theorem gives
at least two attempts. -/
theorem send_rpc_request_retry_policy_witness :
    2 ≤ (send_rpc_request (fun _ => Attempt.exn)).attempts :=
  (send_rpc_request_retry_policy (fun _ => Attempt.exn)).2.2.1 rfl

/-- C5: when every attempted HTTP POST raises a transport failure,
send_rpc_request returns none after exactly max_retries = 3 attempts, and
the backoff delays slept between consecutive attempts, 1 then 2 seconds,
are non-decreasing. -/
theorem send_rpc_request_exhausts_transport (o : Nat → Attempt)
    (h : ∀ i, i < max_retries → o i = Attempt.exn) :
    (send_rpc_request o).result = none ∧
    (send_rpc_request o).attempts = max_retries ∧
    (send_rpc_request o).sleeps = [1, 2] ∧
    (send_rpc_request o).sleeps.Chain' (· ≤ ·) := by
  have h0 := h 0 (by decide)
  have h1 := h 1 (by decide)
  have h2 := h 2 (by decide)
  have key : rpcGo o [0, 1, 2] = ⟨none, 3, [1, 2], 2, 1⟩ := by
    simp [rpcGo, h0, h1, h2, max_retries]
  unfold send_rpc_request
  rw [range_attempts, key]
  refine ⟨rfl, rfl, rfl, ?_⟩
  show List.Chain' (· ≤ ·) ([1, 2] : List Nat)
  exact List.chain'_pair.mpr (by norm_num)

/-- C5 witness: the exhaustion theorem applied to the constant transport
failure oracle. -/
theorem send_rpc_request_exhausts_transport_witness :
    (send_rpc_request (fun _ => Attempt.exn)).result = none ∧
    (send_rpc_request (fun _ => Attempt.exn)).attempts = max_retries ∧
    (send_rpc_request (fun _ => Attempt.exn)).sleeps = [1, 2] ∧
    (send_rpc_request (fun _ => Attempt.exn)).sleeps.Chain' (· ≤ ·) :=
  send_rpc_request_exhausts_transport (fun _ => Attempt.exn) (fun _ _ => rfl)

/-- C6: if the endpoint responds with HTTP 500 to every request,
send_rpc_request logs a WARN line on each of the 3 attempts and then
returns none. -/
theorem send_rpc_request_http500_warns (o : Nat → Attempt) (b : Json)
    (h : ∀ i, i < max_retries → o i = Attempt.http 500 b) :
    (send_rpc_request o).warns = max_retries ∧
    (send_rpc_request o).result = none ∧
    (send_rpc_request o).attempts = max_retries := by
  have h0 := h 0 (by decide)
  have h1 := h 1 (by decide)
  have h2 := h 2 (by decide)
  have key : rpcGo o [0, 1, 2] = ⟨none, 3, [], 3, 0⟩ := by
    simp [rpcGo, h0, h1, h2]
  unfold send_rpc_request
  rw [range_attempts, key]
  exact ⟨rfl, rfl, rfl⟩

/-- C6 witness: the HTTP 500 theorem applied to the constant 500 oracle
with an empty body. -/
theorem send_rpc_request_http500_warns_witness :
    (send_rpc_request (fun _ => Attempt.http 500 [])).warns = max_retries ∧
    (send_rpc_request (fun _ => Attempt.http 500 [])).result = none ∧
    (send_rpc_request (fun _ => Attempt.http 500 [])).attempts = max_retries :=
  send_rpc_request_http500_warns (fun _ => Attempt.http 500 []) [] (fun _ _ => rfl)

/-- respHasResult holds exactly when the response is a truthy dict with a
"result" field. -/
theorem respHasResult_true_iff (o : Option Json) :
    respHasResult o = true ↔
      ∃ r, o = some r ∧ (!r.isEmpty && (jsonGet r "result").isSome) = true := by
  cases o <;> simp [respHasResult]

/-- Unfolding step: a truthy response with a "result" field ends the
endpoint loop with a success. -/
theorem try_endpoints_cons_hit (resp : String → Option Json) (name url : String)
    (rest : List (String × String)) (s : Stats) (r : Json)
    (hv : resp url = some r)
    (hb : (!r.isEmpty && (jsonGet r "result").isSome) = true) :
    try_endpoints resp ((name, url) :: rest) s =
      (jsonGet r "result",
       { s with successful_transactions := s.successful_transactions + 1 },
       [name]) := by
  simp [try_endpoints, hv, hb]

/-- Unfolding step: a missing response, or one without a "result" field
(an "error" response only logs a warning), moves on to the next endpoint. -/
theorem try_endpoints_cons_miss (resp : String → Option Json) (name url : String)
    (rest : List (String × String)) (s : Stats)
    (h : respHasResult (resp url) = false) :
    try_endpoints resp ((name, url) :: rest) s =
      ((try_endpoints resp rest s).1, (try_endpoints resp rest s).2.1,
       name :: (try_endpoints resp rest s).2.2) := by
  cases hv : resp url with
  | none => simp [try_endpoints, hv]
  | some r =>
    have hb : (!r.isEmpty && (jsonGet r "result").isSome) = false := by
      simpa [respHasResult, hv] using h
    simp [try_endpoints, hv, hb]

/-- C1: send_transaction increments the total counter exactly once, and
exactly one of the success / failure counters exactly once: the success
counter when some endpoint response is truthy with a "result" field, the
failure counter otherwise; an "error" field alone never touches the
failure counter, which depends only on "result"-field presence. -/
theorem send_transaction_counters (tx : Tx) (tx_type : String) (amount : Nat)
    (resp : String → Option Json) (s : Stats) :
    (send_transaction tx tx_type amount resp s).2.1.total_transactions =
      s.total_transactions + 1 ∧
    (send_transaction tx tx_type amount resp s).2.1.successful_transactions =
      s.successful_transactions +
        (if respHasResult (resp RPC_URL) || respHasResult (resp SEQUENCER_URL)
         then 1 else 0) ∧
    (send_transaction tx tx_type amount resp s).2.1.failed_transactions =
      s.failed_transactions +
        (if respHasResult (resp RPC_URL) || respHasResult (resp SEQUENCER_URL)
         then 0 else 1) := by
  cases hb1 : respHasResult (resp RPC_URL) with
  | true =>
    obtain ⟨r, hv, hb⟩ := (respHasResult_true_iff _).mp hb1
    unfold send_transaction
    rw [try_endpoints_cons_hit resp "Validator" RPC_URL _ _ r hv hb]
    simp [hb1]
  | false =>
    unfold send_transaction
    rw [try_endpoints_cons_miss resp "Validator" RPC_URL _ _ hb1]
    cases hb2 : respHasResult (resp SEQUENCER_URL) with
    | true =>
      obtain ⟨r2, hq, hb⟩ := (respHasResult_true_iff _).mp hb2
      rw [try_endpoints_cons_hit resp "Sequencer" SEQUENCER_URL _ _ r2 hq hb]
      simp [hb1, hb2]
    | false =>
      rw [try_endpoints_cons_miss resp "Sequencer" SEQUENCER_URL _ _ hb2]
      simp [try_endpoints, hb1, hb2]

/-- C4: send_transaction contacts the Validator endpoint first and the
Sequencer endpoint only after it; it stops at the first truthy response
with a "result" field, returning that value; on the scenario response
with result "0xabc" from the primary it returns "0xabc" without
contacting the Sequencer; on a response carrying only an "error" field it
proceeds to the next endpoint. -/
theorem send_transaction_endpoint_order (tx : Tx) (tx_type : String) (amount : Nat)
    (resp : String → Option Json) (s : Stats) :
    ((send_transaction tx tx_type amount resp s).2.2 = ["Validator"] ∨
      (send_transaction tx tx_type amount resp s).2.2 = ["Validator", "Sequencer"]) ∧
    (∀ r, resp RPC_URL = some r →
      (!r.isEmpty && (jsonGet r "result").isSome) = true →
      (send_transaction tx tx_type amount resp s).1 = jsonGet r "result" ∧
      (send_transaction tx tx_type amount resp s).2.2 = ["Validator"]) ∧
    (resp RPC_URL = some [("result", "0xabc")] →
      (send_transaction tx tx_type amount resp s).1 = some "0xabc" ∧
      (send_transaction tx tx_type amount resp s).2.2 = ["Validator"]) ∧
    (∀ r, resp RPC_URL = some r → jsonGet r "result" = none →
      (jsonGet r "error").isSome = true →
      (send_transaction tx tx_type amount resp s).2.2 = ["Validator", "Sequencer"]) := by
  have tailContact : ∀ s' : Stats,
      (try_endpoints resp [("Sequencer", SEQUENCER_URL)] s').2.2 = ["Sequencer"] := by
    intro s'
    cases hb2 : respHasResult (resp SEQUENCER_URL) with
    | true =>
      obtain ⟨r2, hq, hb⟩ := (respHasResult_true_iff _).mp hb2
      rw [try_endpoints_cons_hit resp "Sequencer" SEQUENCER_URL _ _ r2 hq hb]
    | false =>
      rw [try_endpoints_cons_miss resp "Sequencer" SEQUENCER_URL _ _ hb2]
      simp [try_endpoints]
  refine ⟨?_, ?_, ?_, ?_⟩
  · cases hb1 : respHasResult (resp RPC_URL) with
    | true =>
      obtain ⟨r, hv, hb⟩ := (respHasResult_true_iff _).mp hb1
      left
      unfold send_transaction
      rw [try_endpoints_cons_hit resp "Validator" RPC_URL _ _ r hv hb]
    | false =>
      right
      unfold send_transaction
      rw [try_endpoints_cons_miss resp "Validator" RPC_URL _ _ hb1]
      simp [tailContact]
  · intro r hv hb
    unfold send_transaction
    rw [try_endpoints_cons_hit resp "Validator" RPC_URL _ _ r hv hb]
    exact ⟨rfl, rfl⟩
  · intro hv
    unfold send_transaction
    rw [try_endpoints_cons_hit resp "Validator" RPC_URL _ _ _ hv (by decide)]
    constructor
    · show jsonGet [("result", "0xabc")] "result" = some "0xabc"
      decide
    · rfl
  · intro r hv hres _herr
    have hb1 : respHasResult (resp RPC_URL) = false := by
      simp [respHasResult, hv, hres]
    unfold send_transaction
    rw [try_endpoints_cons_miss resp "Validator" RPC_URL _ _ hb1]
    simp [tailContact]

/-- C4 witness: the endpoint-order theorem applied to the oracle whose
every response is the scenario result. -/
theorem send_transaction_endpoint_order_witness :
    (send_transaction ⟨"", "", "", "", "", ""⟩ "transfer" 0
        (fun _ => some [("result", "0xabc")]) stats).1 = some "0xabc" ∧
    (send_transaction ⟨"", "", "", "", "", ""⟩ "transfer" 0
        (fun _ => some [("result", "0xabc")]) stats).2.2 = ["Validator"] :=
  (send_transaction_endpoint_order ⟨"", "", "", "", "", ""⟩ "transfer" 0
    (fun _ => some [("result", "0xabc")]) stats).2.2.1 rfl

/-- The stats update of one health check is the watermark step on the
observed height; the returned current block is the observed height. -/
theorem check_network_health_step (v q b : Option Json) (s : Stats) :
    (check_network_health v q b s).2 =
      (if s.last_block_check < observedHeight b then
        { s with
            blocks_observed :=
              s.blocks_observed + (observedHeight b - s.last_block_check),
            last_block_check := observedHeight b }
       else s) ∧
    (check_network_health v q b s).1.2.2 = observedHeight b := by
  unfold check_network_health observedHeight
  cases b with
  | none => simp
  | some r =>
    by_cases hg : (!r.isEmpty && (jsonGet r "result").isSome) = true
    · simp only [hg, if_true]
      cases hp : parseHex ((jsonGet r "result").getD "") with
      | none => simp [hp]
      | some n =>
        by_cases hlt : s.last_block_check < n
        · simp [hp, hlt]
        · simp [hp, hlt]
    · simp [hg]

/-- blocks_observed never decreases across any run of health checks. -/
theorem runHealthChecks_mono :
    ∀ (inputs : List (Option Json × Option Json × Option Json)) (s0 : Stats),
      s0.blocks_observed ≤ (runHealthChecks inputs s0).blocks_observed := by
  intro inputs
  induction inputs with
  | nil => intro s0; exact le_refl _
  | cons i is ih =>
    intro s0
    have hstep : s0.blocks_observed ≤
        ((check_network_health i.1 i.2.1 i.2.2 s0).2).blocks_observed := by
      rw [(check_network_health_step i.1 i.2.1 i.2.2 s0).1]
      by_cases hlt : s0.last_block_check < observedHeight i.2.2
      · simp [hlt]
      · simp [hlt]
    have hrw : runHealthChecks (i :: is) s0 =
        runHealthChecks is ((check_network_health i.1 i.2.1 i.2.2 s0).2) := rfl
    rw [hrw]
    exact le_trans hstep (ih _)

/-- C3: in one health-check cycle, blocks_observed never decreases; when
the observed height exceeds the recorded watermark the counter grows by
exactly the positive delta and the watermark becomes the observed height;
when the observed height is at most the watermark (including any
regression) the stats are unchanged; and across any sequence of cycles
blocks_observed never decreases. -/
theorem check_network_health_watermark (v q b : Option Json) (s : Stats) :
    s.blocks_observed ≤ (check_network_health v q b s).2.blocks_observed ∧
    (s.last_block_check < (check_network_health v q b s).1.2.2 →
      (check_network_health v q b s).2.blocks_observed =
        s.blocks_observed +
          ((check_network_health v q b s).1.2.2 - s.last_block_check) ∧
      (check_network_health v q b s).2.last_block_check =
        (check_network_health v q b s).1.2.2) ∧
    ((check_network_health v q b s).1.2.2 ≤ s.last_block_check →
      (check_network_health v q b s).2 = s) ∧
    (∀ (inputs : List (Option Json × Option Json × Option Json)) (s0 : Stats),
      s0.blocks_observed ≤ (runHealthChecks inputs s0).blocks_observed) := by
  have hs := check_network_health_step v q b s
  rw [hs.1, hs.2]
  refine ⟨?_, ?_, ?_, runHealthChecks_mono⟩
  · by_cases hlt : s.last_block_check < observedHeight b
    · simp [hlt]
    · simp [hlt]
  · intro hlt
    rw [if_pos hlt]
    exact ⟨rfl, rfl⟩
  · intro hle
    rw [if_neg (by omega)]

/-- C3 witness: from watermark 0, observing height 5 adds exactly the
delta 5 and sets the watermark to 5. -/
theorem check_network_health_watermark_witness :
    (check_network_health none none (some [("result", "0x5")]) stats).2.blocks_observed =
      stats.blocks_observed +
        ((check_network_health none none (some [("result", "0x5")]) stats).1.2.2 -
          stats.last_block_check) ∧
    (check_network_health none none (some [("result", "0x5")]) stats).2.last_block_check =
      (check_network_health none none (some [("result", "0x5")]) stats).1.2.2 :=
  (check_network_health_watermark none none (some [("result", "0x5")]) stats).2.1
    (by decide)

/-- From a state whose counter equals its watermark, any run of health
checks keeps them equal, and the watermark becomes the running maximum of
the observed heights. -/
theorem runHealthChecks_watermark :
    ∀ (inputs : List (Option Json × Option Json × Option Json)) (s0 : Stats),
      s0.blocks_observed = s0.last_block_check →
      (runHealthChecks inputs s0).blocks_observed =
        (runHealthChecks inputs s0).last_block_check ∧
      (runHealthChecks inputs s0).last_block_check =
        inputs.foldl (fun acc i => max acc (observedHeight i.2.2))
          s0.last_block_check := by
  intro inputs
  induction inputs with
  | nil => intro s0 h; exact ⟨h, rfl⟩
  | cons i is ih =>
    intro s0 h
    have e := (check_network_health_step i.1 i.2.1 i.2.2 s0).1
    have h1 : ((check_network_health i.1 i.2.1 i.2.2 s0).2).blocks_observed =
          ((check_network_health i.1 i.2.1 i.2.2 s0).2).last_block_check ∧
        ((check_network_health i.1 i.2.1 i.2.2 s0).2).last_block_check =
          max s0.last_block_check (observedHeight i.2.2) := by
      rw [e]
      by_cases hlt : s0.last_block_check < observedHeight i.2.2
      · simp only [if_pos hlt]
        constructor
        · show s0.blocks_observed + (observedHeight i.2.2 - s0.last_block_check) =
            observedHeight i.2.2
          omega
        · show observedHeight i.2.2 = max s0.last_block_check (observedHeight i.2.2)
          omega
      · simp only [if_neg hlt]
        exact ⟨h, by omega⟩
    have hrw : runHealthChecks (i :: is) s0 =
        runHealthChecks is ((check_network_health i.1 i.2.1 i.2.2 s0).2) := rfl
    rw [hrw]
    have h2 := ih _ h1.1
    refine ⟨h2.1, ?_⟩
    rw [h2.2, h1.2]
    rfl

/-- The endpoint loop of send_transaction leaves blocks_observed and the
watermark untouched. -/
theorem try_endpoints_blocks (resp : String → Option Json) :
    ∀ (l : List (String × String)) (s : Stats),
      (try_endpoints resp l s).2.1.blocks_observed = s.blocks_observed ∧
      (try_endpoints resp l s).2.1.last_block_check = s.last_block_check := by
  intro l
  induction l with
  | nil => intro s; simp [try_endpoints]
  | cons e rest ih =>
    intro s
    obtain ⟨name, url⟩ := e
    cases hv : resp url with
    | none =>
      simp only [try_endpoints, hv]
      exact ih s
    | some r =>
      by_cases hb : (!r.isEmpty && (jsonGet r "result").isSome) = true
      · simp [try_endpoints, hv, hb]
      · simp only [try_endpoints, hv, hb, if_neg, Bool.false_eq_true, if_false]
        exact ih s

/-- C10: blocks_observed and last_block_check both start at 0, every run
of health checks from the initial stats keeps them equal, their common
value is the running maximum of the observed heights (the highest block
height ever observed, counted from height 0), and send_transaction never
touches either field. -/
theorem stats_blocks_equal_watermark :
    stats.blocks_observed = 0 ∧ stats.last_block_check = 0 ∧
    (∀ inputs : List (Option Json × Option Json × Option Json),
      (runHealthChecks inputs stats).blocks_observed =
        (runHealthChecks inputs stats).last_block_check) ∧
    (∀ inputs : List (Option Json × Option Json × Option Json),
      (runHealthChecks inputs stats).blocks_observed =
        inputs.foldl (fun acc i => max acc (observedHeight i.2.2)) 0) ∧
    (∀ (tx : Tx) (tx_type : String) (amount : Nat)
        (resp : String → Option Json) (s : Stats),
      (send_transaction tx tx_type amount resp s).2.1.blocks_observed =
        s.blocks_observed ∧
      (send_transaction tx tx_type amount resp s).2.1.last_block_check =
        s.last_block_check) := by
  refine ⟨rfl, rfl, ?_, ?_, ?_⟩
  · intro inputs
    exact (runHealthChecks_watermark inputs stats rfl).1
  · intro inputs
    have h := runHealthChecks_watermark inputs stats rfl
    rw [h.1, h.2]
    rfl
  · intro tx tx_type amount resp s
    have h := try_endpoints_blocks resp
      [("Validator", RPC_URL), ("Sequencer", SEQUENCER_URL)]
      { s with total_transactions := s.total_transactions + 1 }
    exact ⟨h.1, h.2⟩

/-- The resampling loop only ever returns an account whose address
differs from the sender address. -/
theorem resampleTo_ne (accounts : List Account) (fromAddr : String) (picks : Nat → Nat) :
    ∀ (fuel i : Nat) (acc : Account),
      resampleTo accounts fromAddr picks i fuel = some acc →
      acc.address ≠ fromAddr := by
  intro fuel
  induction fuel with
  | zero => intro i acc h; simp [resampleTo] at h
  | succ n ih =>
    intro i acc h
    simp only [resampleTo] at h
    by_cases hc : (accounts.getD (picks i % accounts.length) default).address = fromAddr
    · rw [if_pos hc] at h
      exact ih (i + 1) acc h
    · rw [if_neg hc] at h
      have e := Option.some.inj h
      subst e
      exact hc

/-- randint never goes below its lower bound. -/
theorem randint_lower (a b k : Nat) : a ≤ randint a b k :=
  Nat.le_add_right a _

/-- randint never exceeds its upper bound when the range is non-empty. -/
theorem randint_upper (a b k : Nat) (h : a ≤ b) : randint a b k ≤ b := by
  have h1 : k % (b - a + 1) < b - a + 1 := Nat.mod_lt k (Nat.succ_pos (b - a))
  unfold randint
  omega

/-- Every pattern of the table has a non-empty amount range. -/
theorem TX_PATTERNS_range_le (i : Nat) :
    (TX_PATTERNS.getD (i % TX_PATTERNS.length) default).amount_range.1 ≤
      (TX_PATTERNS.getD (i % TX_PATTERNS.length) default).amount_range.2 := by
  have hl : TX_PATTERNS.length = 4 := rfl
  rw [hl]
  have h4 : i % 4 = 0 ∨ i % 4 = 1 ∨ i % 4 = 2 ∨ i % 4 = 3 := by omega
  rcases h4 with h | h | h | h <;> rw [h] <;> decide

/-- Shape of every value generate_realistic_transaction returns: the
resampled recipient exists, and the tuple components are the draws made
from the selected pattern. -/
theorem generate_some_elim (pp fp : Nat) (tp : Nat → Nat) (ap gpp glp dlp fuel : Nat)
    (tx : Tx) (t : String) (a : Nat)
    (h : generate_realistic_transaction pp fp tp ap gpp glp dlp fuel = some (tx, t, a)) :
    ∃ cand : Account,
      resampleTo ACCOUNTS (ACCOUNTS.getD (fp % ACCOUNTS.length) default).address
          tp 0 fuel = some cand ∧
      tx = ⟨(ACCOUNTS.getD (fp % ACCOUNTS.length) default).address, cand.address,
            hexStr (randint
              (TX_PATTERNS.getD (pp % TX_PATTERNS.length) default).amount_range.1
              (TX_PATTERNS.getD (pp % TX_PATTERNS.length) default).amount_range.2 ap),
            hexStr (if (TX_PATTERNS.getD (pp % TX_PATTERNS.length) default).type =
                      "contract_call"
                    then randint 50000 200000 glp else 21000),
            hexStr (randint 1000000000 50000000000 gpp),
            (if (TX_PATTERNS.getD (pp % TX_PATTERNS.length) default).type ≠
                  "contract_call"
             then "0x" else "0x" ++ zeroBytes (randint 0 100 dlp))⟩ ∧
      t = (TX_PATTERNS.getD (pp % TX_PATTERNS.length) default).type ∧
      a = randint
            (TX_PATTERNS.getD (pp % TX_PATTERNS.length) default).amount_range.1
            (TX_PATTERNS.getD (pp % TX_PATTERNS.length) default).amount_range.2 ap := by
  simp only [generate_realistic_transaction] at h
  cases hr : resampleTo ACCOUNTS (ACCOUNTS.getD (fp % ACCOUNTS.length) default).address
      tp 0 fuel with
  | none => rw [hr] at h; simp at h
  | some cand =>
    rw [hr] at h
    simp only [Option.some.injEq, Prod.mk.injEq] at h
    exact ⟨cand, rfl, h.1.symm, h.2.1.symm, h.2.2.symm⟩

/-- C7: the account pool has at least two (in fact three) pairwise
distinct addresses, and every transaction the generator produces has
distinct from and to addresses. -/
theorem generated_from_ne_to :
    2 ≤ ACCOUNTS.length ∧ (ACCOUNTS.map Account.address).Nodup ∧
    ∀ pp fp : Nat, ∀ tp : Nat → Nat, ∀ ap gpp glp dlp fuel : Nat,
      ∀ tx : Tx, ∀ t : String, ∀ a : Nat,
        generate_realistic_transaction pp fp tp ap gpp glp dlp fuel = some (tx, t, a) →
        tx.from_addr ≠ tx.to_addr := by
  refine ⟨by decide, by decide, ?_⟩
  intro pp fp tp ap gpp glp dlp fuel tx t a h
  obtain ⟨cand, hr, htx, -, -⟩ := generate_some_elim pp fp tp ap gpp glp dlp fuel tx t a h
  have hne := resampleTo_ne ACCOUNTS
    (ACCOUNTS.getD (fp % ACCOUNTS.length) default).address tp fuel 0 cand hr
  rw [htx]
  exact Ne.symm hne

/-- C7 witness: a concretely generated transfer has distinct endpoints. -/
theorem generated_from_ne_to_witness :
    (⟨(ACCOUNTS.getD 0 default).address, (ACCOUNTS.getD 2 default).address,
      hexStr 6, hexStr 21000, hexStr 1000000000, "0x"⟩ : Tx).from_addr ≠
      (⟨(ACCOUNTS.getD 0 default).address, (ACCOUNTS.getD 2 default).address,
        hexStr 6, hexStr 21000, hexStr 1000000000, "0x"⟩ : Tx).to_addr :=
  generated_from_ne_to.2.2 0 0 (fun _ => 2) 5 0 0 0 1
    ⟨(ACCOUNTS.getD 0 default).address, (ACCOUNTS.getD 2 default).address,
     hexStr 6, hexStr 21000, hexStr 1000000000, "0x"⟩ "transfer" 6 (by decide)

/-- C8: the returned type is the selected pattern's type, the drawn
amount lies in the pattern's inclusive amount range, and the gas limit is
exactly 21000 for non-contract-call patterns and within [50000, 200000]
for contract-call patterns. -/
theorem generated_tx_ranges (pp fp : Nat) (tp : Nat → Nat) (ap gpp glp dlp fuel : Nat)
    (tx : Tx) (t : String) (a : Nat)
    (h : generate_realistic_transaction pp fp tp ap gpp glp dlp fuel = some (tx, t, a)) :
    t = (TX_PATTERNS.getD (pp % TX_PATTERNS.length) default).type ∧
    (TX_PATTERNS.getD (pp % TX_PATTERNS.length) default).amount_range.1 ≤ a ∧
    a ≤ (TX_PATTERNS.getD (pp % TX_PATTERNS.length) default).amount_range.2 ∧
    (t ≠ "contract_call" → tx.gas = hexStr 21000) ∧
    (t = "contract_call" → ∃ g, 50000 ≤ g ∧ g ≤ 200000 ∧ tx.gas = hexStr g) := by
  obtain ⟨cand, hr, htx, ht, ha⟩ := generate_some_elim pp fp tp ap gpp glp dlp fuel tx t a h
  subst htx
  subst ht
  subst ha
  refine ⟨rfl, randint_lower _ _ _, randint_upper _ _ _ (TX_PATTERNS_range_le pp), ?_, ?_⟩
  · intro hne
    show hexStr (if (TX_PATTERNS.getD (pp % TX_PATTERNS.length) default).type =
          "contract_call" then randint 50000 200000 glp else 21000) = hexStr 21000
    rw [if_neg hne]
  · intro heq
    refine ⟨randint 50000 200000 glp, randint_lower _ _ _,
      randint_upper _ _ _ (by norm_num), ?_⟩
    show hexStr (if (TX_PATTERNS.getD (pp % TX_PATTERNS.length) default).type =
          "contract_call" then randint 50000 200000 glp else 21000) =
        hexStr (randint 50000 200000 glp)
    rw [if_pos heq]

/-- C8 witness: a concrete transfer draw lies in the transfer range and
carries gas limit 21000. -/
theorem generated_tx_ranges_witness :
    (TX_PATTERNS.getD (0 % TX_PATTERNS.length) default).amount_range.1 ≤ 6 ∧
    6 ≤ (TX_PATTERNS.getD (0 % TX_PATTERNS.length) default).amount_range.2 ∧
    (⟨(ACCOUNTS.getD 0 default).address, (ACCOUNTS.getD 2 default).address,
      hexStr 6, hexStr 21000, hexStr 1000000000, "0x"⟩ : Tx).gas = hexStr 21000 := by
  have h := generated_tx_ranges 0 0 (fun _ => 2) 5 0 0 0 1
    ⟨(ACCOUNTS.getD 0 default).address, (ACCOUNTS.getD 2 default).address,
     hexStr 6, hexStr 21000, hexStr 1000000000, "0x"⟩ "transfer" 6 (by decide)
  exact ⟨h.2.1, h.2.2.1, h.2.2.2.1 (by decide)⟩

/-- The data field of every generated transaction: "0x" for
non-contract-call patterns, "0x" plus at most 100 zero bytes for
contract-call patterns. -/
theorem generate_data_shape (pp fp : Nat) (tp : Nat → Nat) (ap gpp glp dlp fuel : Nat)
    (tx : Tx) (t : String) (a : Nat)
    (h : generate_realistic_transaction pp fp tp ap gpp glp dlp fuel = some (tx, t, a)) :
    (t ≠ "contract_call" → tx.data = "0x") ∧
    (t = "contract_call" → ∃ m, m ≤ 100 ∧ tx.data = "0x" ++ zeroBytes m) := by
  obtain ⟨cand, hr, htx, ht, ha⟩ := generate_some_elim pp fp tp ap gpp glp dlp fuel tx t a h
  subst htx
  subst ht
  constructor
  · intro hne
    show (if (TX_PATTERNS.getD (pp % TX_PATTERNS.length) default).type ≠ "contract_call"
          then "0x" else "0x" ++ zeroBytes (randint 0 100 dlp)) = "0x"
    rw [if_pos hne]
  · intro heq
    refine ⟨randint 0 100 dlp, randint_upper 0 100 dlp (by norm_num), ?_⟩
    show (if (TX_PATTERNS.getD (pp % TX_PATTERNS.length) default).type ≠ "contract_call"
          then "0x" else "0x" ++ zeroBytes (randint 0 100 dlp)) =
        "0x" ++ zeroBytes (randint 0 100 dlp)
    rw [if_neg (fun hne => hne heq)]

/-- The characters of "00" * n are all '0'. -/
theorem zeroBytes_data (m : Nat) :
    (zeroBytes m).data = List.replicate (2 * m) '0' := by
  induction m with
  | zero => rfl
  | succ n ih =>
    show ("00" ++ zeroBytes n).data = List.replicate (2 * (n + 1)) '0'
    rw [String.data_append, ih]
    have h2 : 2 * (n + 1) = (2 * n + 1) + 1 := by ring
    rw [h2, List.replicate_succ, List.replicate_succ]
    rfl

/-- C9 counterexample: the data payload of a contract-call transaction is
never made of random bytes: the one-byte payload 0x01 is not producible,
because every producible payload consists of zero bytes only. -/
theorem contract_call_data_not_arbitrary : producesData "0x01" = False := by
  apply eq_false
  rintro ⟨pp, fp, tp, ap, gpp, glp, dlp, fuel, tx, t, a, hgen, ht, hdata⟩
  obtain ⟨cand, hr, htx, hty, ha⟩ :=
    generate_some_elim pp fp tp ap gpp glp dlp fuel tx t a hgen
  subst htx
  have hcc : (TX_PATTERNS.getD (pp % TX_PATTERNS.length) default).type =
      "contract_call" := hty.symm.trans ht
  have hdata' : (if (TX_PATTERNS.getD (pp % TX_PATTERNS.length) default).type ≠
        "contract_call"
      then "0x" else "0x" ++ zeroBytes (randint 0 100 dlp)) = "0x01" := hdata
  rw [if_neg (fun hne => hne hcc)] at hdata'
  have hlist := congrArg String.data hdata'
  rw [String.data_append, zeroBytes_data] at hlist
  have h0x : ("0x" : String).data = ['0', 'x'] := rfl
  have h01 : ("0x01" : String).data = ['0', 'x', '0', '1'] := rfl
  rw [h0x, h01] at hlist
  simp only [List.cons_append, List.nil_append] at hlist
  have htail : List.replicate (2 * randint 0 100 dlp) '0' = ['0', '1'] := by
    injection hlist with h0 h1
    injection h1 with hx h2
  have hmem : ('1' : Char) ∈ List.replicate (2 * randint 0 100 dlp) '0' := by
    rw [htail]
    simp
  have := List.eq_of_mem_replicate hmem
  exact absurd this (by decide)

/-- C9 (amended): for contract-call patterns the data payload is "0x"
followed by a random number (0 to 100) of zero bytes ("00" repeated); for
every other pattern it is the bare "0x". -/
theorem generated_tx_data (pp fp : Nat) (tp : Nat → Nat) (ap gpp glp dlp fuel : Nat)
    (tx : Tx) (t : String) (a : Nat)
    (h : generate_realistic_transaction pp fp tp ap gpp glp dlp fuel = some (tx, t, a)) :
    (t ≠ "contract_call" → tx.data = "0x") ∧
    (t = "contract_call" → ∃ m, m ≤ 100 ∧ tx.data = "0x" ++ zeroBytes m) :=
  generate_data_shape pp fp tp ap gpp glp dlp fuel tx t a h

/-- C9 witness: a concrete contract-call transaction carries a one-zero-
byte payload. -/
theorem generated_tx_data_witness :
    ∃ m, m ≤ 100 ∧
      (⟨(ACCOUNTS.getD 0 default).address, (ACCOUNTS.getD 1 default).address,
        hexStr 0, hexStr 50000, hexStr 1000000000, "0x" ++ zeroBytes 1⟩ : Tx).data =
        "0x" ++ zeroBytes m :=
  (generated_tx_data 3 0 (fun _ => 1) 0 0 0 1 1
    ⟨(ACCOUNTS.getD 0 default).address, (ACCOUNTS.getD 1 default).address,
     hexStr 0, hexStr 50000, hexStr 1000000000, "0x" ++ zeroBytes 1⟩
    "contract_call" 0 (by decide)).2 rfl
